import Mathlib

/-!
Shallow embedding of the sports-department CRUD backend
(src/index.js and src/config/database.js).

Request handlers are modelled as pure functions from a database snapshot
(and, for upload endpoints, the set of filenames in the uploads directory)
to a response together with the successor state.  JS body fields are
modelled as `Option` values (`none` = absent); JS string truthiness
(absent and the empty string are falsy) is captured by `jsTruthy`.
Database exceptions raised during the query phase are injected through an
explicit `Option DbErr` / `Bool` parameter, which selects the handler's
catch branch exactly as the source does on the corresponding error code.
-/

namespace SportsDept

/-- A calendar date by its JS `Date` components: full year, month and day
of month.  Months are 1-based here; only month differences and comparisons
occur in the source, so the 0-based JS `getMonth` convention is immaterial. -/
structure SimpleDate where
  year : Int
  month : Int
  day : Int
deriving DecidableEq, Repr

/-- Age computation from src/index.js lines 745-752 (POST /api/students),
repeated verbatim at lines 810-817 (PUT /api/students/:id) and lines
2129-2136 (POST /api/student-links/submit):
`age = today.getFullYear() - birth.getFullYear()`, decremented when
`monthDiff < 0 || (monthDiff === 0 && today.getDate() < birth.getDate())`. -/
def computeAge (birth today : SimpleDate) : Int :=
  let base := today.year - birth.year
  let monthDiff := today.month - birth.month
  if monthDiff < 0 ∨ (monthDiff = 0 ∧ today.day < birth.day) then base - 1 else base

/-- Modelled from the spec: `age = currentYear - birthYear`, minus one if
`(currentMonth, currentDay) < (birthMonth, birthDay)` lexicographically. -/
def ageSpecFormula (birth today : SimpleDate) : Int :=
  (today.year - birth.year) -
    (if today.month < birth.month ∨ (today.month = birth.month ∧ today.day < birth.day)
     then 1 else 0)

/-- JS truthiness of an optional string body field: absent (`undefined`)
and the empty string are falsy. -/
def jsTruthy : Option String → Bool
  | none => false
  | some s => !(s == "")

/-- JS truthiness of an optional numeric body field (absent and 0 falsy). -/
def jsTruthyI : Option Int → Bool
  | none => false
  | some n => !(n == 0)

/-- JS truthiness of an optional id field (absent and 0 falsy). -/
def jsTruthyN : Option Nat → Bool
  | none => false
  | some n => !(n == 0)

/-- Read an optional string as JS would inside a truthy branch. -/
def jsGetS (o : Option String) : String := o.getD ""

/-- JS `x || d` for an optional string `x`. -/
def jsOr (o : Option String) (d : String) : String :=
  if jsTruthy o then jsGetS o else d

/-- Whitespace characters of the regex class `\s` (ASCII part). -/
def isWsChar (c : Char) : Bool :=
  c == ' ' || c == '\t' || c == '\n' || c == '\r' || c == '\x0b' || c == '\x0c'

/-- Drop leading whitespace characters. -/
def dropLeadingWs : List Char → List Char
  | [] => []
  | c :: t => if isWsChar c then dropLeadingWs t else c :: t

/-- JS `String.prototype.trim`: strip leading and trailing whitespace
(implemented structurally so proofs can evaluate it). -/
def jsTrim (s : String) : String :=
  ⟨(dropLeadingWs (dropLeadingWs s.data).reverse).reverse⟩

/-- JS `x ? x.trim() : null` for an optional string field. -/
def optTrim (o : Option String) : Option String :=
  if jsTruthy o then some (jsTrim (jsGetS o)) else none

/-- `!name || !name.trim()` validation used for names: the field must be
present, nonempty and not whitespace-only. -/
def trimTruthy (o : Option String) : Bool :=
  jsTruthy o && !(jsTrim (jsGetS o) == "")

/-- One or more characters, none of them whitespace or `@`
(the regex atom `[^\s@]+`). -/
def atomOk (l : List Char) : Bool :=
  !l.isEmpty && l.all (fun c => !isWsChar c && c != '@')

/-- Whether a character list has a dot at some position other than the
first and the last, i.e. whether it matches `[^\s@]+\.[^\s@]+` once its
characters are known to be dot-compatible atom characters. -/
def hasInnerDot : List Char → Bool
  | [] => false
  | _ :: t => t.dropLast.contains '.'

/-- The email validation regex of the source (lines 330-333):
one run of non-whitespace non-`@` characters, a single `@`, then a domain
containing a dot with at least one such character on each side. -/
def emailValid (s : String) : Bool :=
  let cs := s.data
  let localPart := cs.takeWhile (fun c => c != '@')
  match cs.dropWhile (fun c => c != '@') with
  | [] => false
  | _ :: dom => atomOk localPart && atomOk dom && hasInnerDot dom

/-! ## Data model (src/config/database.js table DDL plus the columns the
handlers in src/index.js read and write; the `student_links` CREATE TABLE
statement is not under src/, its columns are taken from the queries in
src/index.js lines 1974-2243). -/

structure Manager where
  id : Nat
  name : String
  department : String
  sport : String
  contact : String
  email : String
  studentCount : Int
  teamId : Option Nat
deriving DecidableEq, Repr

structure Sport where
  id : Nat
  name : String
  description : Option String
deriving DecidableEq, Repr

structure Team where
  id : Nat
  name : String
  department : String
  logo : Option String
  color : Option String
deriving DecidableEq, Repr

structure Student where
  id : Nat
  name : String
  prn_uid : String
  contact : String
  email : Option String
  address : Option String
  birthDate : SimpleDate
  age : Int
  managerId : Nat
  linkToken : Option String
deriving DecidableEq, Repr

structure Coach where
  id : Nat
  name : String
  contact : String
  email : Option String
  specialization : Option String
  managerId : Nat
deriving DecidableEq, Repr

structure StudentSelection where
  id : Nat
  studentId : Nat
  managerId : Nat
  isSelected : Bool
deriving DecidableEq, Repr

structure EventImage where
  id : Nat
  title : Option String
  description : Option String
  imageUrl : String
  displayOrder : Int
deriving DecidableEq, Repr

structure Notice where
  id : Nat
  title : Option String
  description : Option String
  documentUrl : Option String
  scheduleImageUrl : Option String
  noticeDate : String
deriving DecidableEq, Repr

structure StudentLink where
  id : Nat
  managerId : Nat
  token : String
  isActive : Bool
deriving DecidableEq, Repr

/-- One record of the JSON file data/team-images.json. -/
structure TeamImage where
  id : String
  imageUrl : String
  teamName : String
  sport : String
  filename : String
deriving DecidableEq, Repr

/-- The relational database state. -/
structure DB where
  managers : List Manager
  sports : List Sport
  teams : List Team
  students : List Student
  coaches : List Coach
  selections : List StudentSelection
  eventImages : List EventImage
  notices : List Notice
  studentLinks : List StudentLink
deriving DecidableEq, Repr

/-- State of the team-images endpoints: the uploads directory and the
optional data/team-images.json file (`none` = file absent). -/
structure TIState where
  disk : List String
  data : Option (List TeamImage)
deriving DecidableEq, Repr

/-- AUTO_INCREMENT: one more than the largest id in use. -/
def freshId (l : List Nat) : Nat := l.foldr max 0 + 1

/-- A JSON response: HTTP status, `error` field, `message` field and the
entity payload (the `manager` / `sport` / ... field). -/
structure Resp (α : Type) where
  status : Nat
  error : Option String
  message : Option String
  payload : Option α
deriving DecidableEq, Repr

/-- Database error codes distinguished by the catch blocks of the source. -/
inductive DbErr where
  | noSuchTable
  | dupEntry
  | connRefused
  | otherErr (msg : String)
deriving DecidableEq, Repr

/-- SERVER_HOST default (src/index.js line 13). -/
def serverHost : String := "91.108.105.168"

/-- PORT default (src/index.js line 12). -/
def serverPort : String := "4002"

/-- Absolute URL under which a stored upload is served. -/
def uploadUrlOf (f : String) : String :=
  "http://" ++ serverHost ++ ":" ++ serverPort ++ "/uploads/" ++ f

/-- The URL base stripped off by the handlers that recover a filename
from a stored URL. -/
def uploadUrlBase : String :=
  "http://" ++ serverHost ++ ":" ++ serverPort ++ "/uploads/"

/-- Whether `pat` occurs at the head of `l`. -/
def isPatAt (pat l : List Char) : Bool :=
  match pat, l with
  | [], _ => true
  | _ :: _, [] => false
  | p :: ps, c :: cs => p == c && isPatAt ps cs

/-- Remove the first occurrence of `pat` (JS `replace(pat, '')`). -/
def removeFirst (pat : List Char) : List Char → List Char
  | [] => []
  | c :: cs => if isPatAt pat (c :: cs) then (c :: cs).drop pat.length
               else c :: removeFirst pat cs

/-- `url.replace(base, '')`: recover the stored filename from its URL. -/
def fileOfUrl (u : String) : String := ⟨removeFirst uploadUrlBase.data u.data⟩

/-- `fs.unlinkSync` on an optional uploaded file: remove it from the
uploads directory. -/
def unlink (disk : List String) : Option String → List String
  | none => disk
  | some f => disk.erase f

/-- On a new upload, delete the previously stored file (recovered from its
URL) from the uploads directory; otherwise leave the directory unchanged. -/
def replaceOldFile (disk : List String) (newFile : Option String)
    (oldUrl : Option String) : List String :=
  match newFile, oldUrl with
  | some _, some u => disk.erase (fileOfUrl u)
  | _, _ => disk

/-- Insertion step of `ORDER BY` sorting. -/
def insertSorted (le : α → α → Bool) (a : α) : List α → List α
  | [] => [a]
  | b :: t => if le a b then a :: b :: t else b :: insertSorted le a t

/-- Stable sort modelling an SQL `ORDER BY` clause. -/
def sortListBy (le : α → α → Bool) : List α → List α
  | [] => []
  | a :: t => insertSorted le a (sortListBy le t)

/-! ## Request bodies -/

structure ManagerReq where
  name : Option String
  department : Option String
  sport : Option String
  contact : Option String
  email : Option String
  studentCount : Option Int
  teamId : Option Nat
deriving DecidableEq, Repr

structure LoginReq where
  email : Option String
  contact : Option String
deriving DecidableEq, Repr

structure SportReq where
  name : Option String
  description : Option String
deriving DecidableEq, Repr

structure TeamReq where
  name : Option String
  department : Option String
  color : Option String
deriving DecidableEq, Repr

structure StudentReq where
  name : Option String
  prn_uid : Option String
  contact : Option String
  email : Option String
  address : Option String
  birthDate : Option SimpleDate
  managerId : Option Nat
deriving DecidableEq, Repr

structure ToggleReq where
  studentId : Option Nat
  managerId : Option Nat
  isSelected : Option Bool
deriving DecidableEq, Repr

structure EventImageReq where
  title : Option String
  description : Option String
  displayOrder : Option Int
deriving DecidableEq, Repr

structure NoticeReq where
  title : Option String
  description : Option String
  noticeDate : Option String
deriving DecidableEq, Repr

structure SubmitReq where
  token : Option String
  name : Option String
  prn_uid : Option String
  contact : Option String
  email : Option String
  address : Option String
  birthDate : Option SimpleDate
deriving DecidableEq, Repr

/-! ## Manager handlers (src/index.js lines 319-496) -/

/-- POST /api/managers (lines 319-377).  The `studentCount` body field is
modelled after `parseInt`: `none` stands for an absent or unparsable value. -/
def postManagers (db : DB) (r : ManagerReq) : Resp Manager × DB :=
  if !(jsTruthy r.name && jsTruthy r.department && jsTruthy r.sport &&
       jsTruthy r.contact && jsTruthy r.email && jsTruthyI r.studentCount) then
    (⟨400, some "All fields are required", none, none⟩, db)
  else if !emailValid (jsGetS r.email) then
    (⟨400, some "Invalid email format", none, none⟩, db)
  else if r.studentCount.getD 0 ≤ 0 then
    (⟨400, some "Student count must be a positive number", none, none⟩, db)
  else if 0 < (db.managers.filter (fun m => m.email == jsGetS r.email)).length then
    (⟨400, some "Email already exists", none, none⟩, db)
  else
    let m : Manager :=
      { id := freshId (db.managers.map (·.id))
        name := jsTrim (jsGetS r.name)
        department := jsTrim (jsGetS r.department)
        sport := jsTrim (jsGetS r.sport)
        contact := jsTrim (jsGetS r.contact)
        email := jsTrim (jsGetS r.email)
        studentCount := r.studentCount.getD 0
        teamId := r.teamId }
    (⟨201, none, none, some m⟩, { db with managers := db.managers ++ [m] })

/-- DELETE /api/managers/:id (lines 445-467); the row removal cascades to
students, coaches and student selections per the foreign keys of
src/config/database.js: a selection goes away when its own managerId
matches or when its student is one of the cascaded students (the
student_links DDL is absent from src, so links are left untouched). -/
def deleteManager (db : DB) (i : Nat) : Resp Unit × DB :=
  if (db.managers.filter (fun m => m.id == i)).length = 0 then
    (⟨404, some "Manager not found", none, none⟩, db)
  else
    (⟨200, none, some "Manager deleted successfully", none⟩,
     { db with
        managers := db.managers.filter (fun m => !(m.id == i))
        students := db.students.filter (fun s => !(s.managerId == i))
        coaches := db.coaches.filter (fun c => !(c.managerId == i))
        selections := db.selections.filter (fun s =>
          !(s.managerId == i) &&
          !(db.students.any (fun st => st.id == s.studentId &&
              st.managerId == i))) })

/-- POST /api/managers/login (lines 470-496): email as user id, contact as
password, both compared verbatim; the first matching row is returned. -/
def managerLogin (db : DB) (r : LoginReq) : Resp Manager :=
  if !(jsTruthy r.email && jsTruthy r.contact) then
    ⟨400, some "Email and contact are required", none, none⟩
  else
    match db.managers.filter
        (fun m => m.email == jsGetS r.email && m.contact == jsGetS r.contact) with
    | [] => ⟨401, some "Invalid email or contact number", none, none⟩
    | m :: _ => ⟨200, none, none, some m⟩

/-! ## Sport handlers (lines 547-703) -/

/-- POST /api/sports (lines 547-625).  A database error raised during the
query phase selects the catch branch keyed by its error code. -/
def postSports (db : DB) (r : SportReq) (dbErr : Option DbErr) : Resp Sport × DB :=
  if !trimTruthy r.name then
    (⟨400, some "Sport name is required", none, none⟩, db)
  else
    match dbErr with
    | some .dupEntry =>
        (⟨400, some "Sport name already exists", none, none⟩, db)
    | some .connRefused =>
        (⟨500, some "Database connection failed. Please check database configuration.",
          none, none⟩, db)
    | some .noSuchTable =>
        (⟨500, some "Sports table not found. Please restart the server to initialize database tables.",
          none, none⟩, db)
    | some (.otherErr m) =>
        (⟨500, some "Failed to create sport", some m, none⟩, db)
    | none =>
        if 0 < (db.sports.filter (fun s => s.name == jsTrim (jsGetS r.name))).length then
          (⟨400, some "Sport name already exists", none, none⟩, db)
        else
          let s : Sport :=
            { id := freshId (db.sports.map (·.id))
              name := jsTrim (jsGetS r.name)
              description := optTrim r.description }
          (⟨201, none, none, some s⟩, { db with sports := db.sports ++ [s] })

/-- DELETE /api/sports/:id (lines 675-703): 404 when absent, 400 while any
manager references the sport by name (scalar subquery on the first row
with the given id), otherwise the row is removed. -/
def deleteSport (db : DB) (i : Nat) : Resp Unit × DB :=
  match db.sports.filter (fun s => s.id == i) with
  | [] => (⟨404, some "Sport not found", none, none⟩, db)
  | s0 :: _ =>
    if 0 < (db.managers.filter (fun m => m.sport == s0.name)).length then
      (⟨400, some "Cannot delete sport. It is being used by managers.", none, none⟩, db)
    else
      (⟨200, none, some "Sport deleted successfully", none⟩,
       { db with sports := db.sports.filter (fun s => !(s.id == i)) })

/-! ## Student handlers (lines 708-877) -/

/-- POST /api/students (lines 735-797). -/
def postStudents (db : DB) (r : StudentReq) (today : SimpleDate) : Resp Student × DB :=
  if !(jsTruthy r.name && jsTruthy r.prn_uid && jsTruthy r.contact &&
       r.birthDate.isSome && jsTruthyN r.managerId) then
    (⟨400, some "Name, PRN/UID, Contact, Birth Date, and Manager ID are required",
      none, none⟩, db)
  else
    let age := computeAge (r.birthDate.getD ⟨0, 0, 0⟩) today
    if 0 < (db.students.filter
        (fun s => s.prn_uid == jsTrim (jsGetS r.prn_uid))).length then
      (⟨400, some "PRN/UID already exists", none, none⟩, db)
    else
      let s : Student :=
        { id := freshId (db.students.map (·.id))
          name := jsTrim (jsGetS r.name)
          prn_uid := jsTrim (jsGetS r.prn_uid)
          contact := jsTrim (jsGetS r.contact)
          email := optTrim r.email
          address := optTrim r.address
          birthDate := r.birthDate.getD ⟨0, 0, 0⟩
          age := age
          managerId := r.managerId.getD 0
          linkToken := none }
      (⟨201, none, none, some s⟩, { db with students := db.students ++ [s] })

/-- PUT /api/students/:id (lines 800-854): re-validates, recomputes the
age, excludes the row itself from the PRN uniqueness check, updates all
columns but managerId and linkToken, and returns the re-fetched row. -/
def putStudent (db : DB) (i : Nat) (r : StudentReq) (today : SimpleDate) :
    Resp Student × DB :=
  if !(jsTruthy r.name && jsTruthy r.prn_uid && jsTruthy r.contact &&
       r.birthDate.isSome) then
    (⟨400, some "Name, PRN/UID, Contact, and Birth Date are required", none, none⟩, db)
  else
    let age := computeAge (r.birthDate.getD ⟨0, 0, 0⟩) today
    if (db.students.filter (fun s => s.id == i)).length = 0 then
      (⟨404, some "Student not found", none, none⟩, db)
    else if 0 < (db.students.filter
        (fun s => s.prn_uid == jsTrim (jsGetS r.prn_uid) && !(s.id == i))).length then
      (⟨400, some "PRN/UID already exists", none, none⟩, db)
    else
      let upd : Student → Student := fun s =>
        if s.id == i then
          { s with
              name := jsTrim (jsGetS r.name)
              prn_uid := jsTrim (jsGetS r.prn_uid)
              contact := jsTrim (jsGetS r.contact)
              email := optTrim r.email
              address := optTrim r.address
              birthDate := r.birthDate.getD ⟨0, 0, 0⟩
              age := age }
        else s
      let students := db.students.map upd
      (⟨200, none, none, students.find? (fun s => s.id == i)⟩,
       { db with students := students })

/-- DELETE /api/students/:id (lines 857-877); selections cascade per the
student_selections foreign key. -/
def deleteStudent (db : DB) (i : Nat) : Resp Unit × DB :=
  if (db.students.filter (fun s => s.id == i)).length = 0 then
    (⟨404, some "Student not found", none, none⟩, db)
  else
    (⟨200, none, some "Student deleted successfully", none⟩,
     { db with
        students := db.students.filter (fun s => !(s.id == i))
        selections := db.selections.filter (fun s => !(s.studentId == i)) })

/-- DELETE /api/coaches/:id (lines 978-998). -/
def deleteCoach (db : DB) (i : Nat) : Resp Unit × DB :=
  if (db.coaches.filter (fun c => c.id == i)).length = 0 then
    (⟨404, some "Coach not found", none, none⟩, db)
  else
    (⟨200, none, some "Coach deleted successfully", none⟩,
     { db with coaches := db.coaches.filter (fun c => !(c.id == i)) })

/-- POST /api/student-selections/toggle (lines 1066-1104): upsert on the
(studentId, managerId) pair with the boolean taken verbatim. -/
def toggleSelection (db : DB) (r : ToggleReq) : Resp Unit × DB :=
  if !(jsTruthyN r.studentId && jsTruthyN r.managerId && r.isSelected.isSome) then
    (⟨400, some "Student ID, Manager ID, and isSelected (boolean) are required",
      none, none⟩, db)
  else
    let sid := r.studentId.getD 0
    let mid := r.managerId.getD 0
    let b := r.isSelected.getD false
    let msg := if b then "Student selected successfully"
               else "Student deselected successfully"
    if 0 < (db.selections.filter
        (fun s => s.studentId == sid && s.managerId == mid)).length then
      (⟨200, none, some msg, none⟩,
       { db with selections := db.selections.map (fun s =>
           if s.studentId == sid && s.managerId == mid then
             { s with isSelected := b } else s) })
    else
      (⟨200, none, some msg, none⟩,
       { db with selections := db.selections ++
           [{ id := freshId (db.selections.map (·.id))
              studentId := sid, managerId := mid, isSelected := b }] })

/-! ## Team handlers (lines 1114-1403).  The upload endpoints receive the
filename multer has already written to the uploads directory (`none` when
the request carried no file). -/

/-- GET /api/teams (lines 1114-1152): on ER_NO_SUCH_TABLE the handler
returns an empty array with status 200 instead of an error; every other
database error yields 500. -/
def getTeams (db : DB) (dbErr : Option DbErr) : Resp (List Team) :=
  match dbErr with
  | none =>
      ⟨200, none, none,
       some (sortListBy (fun a b => decide (a.name ≤ b.name)) db.teams)⟩
  | some .noSuchTable => ⟨200, none, none, some []⟩
  | some _ => ⟨500, some "Failed to fetch teams", none, none⟩

/-- POST /api/teams (lines 1203-1277): every failure path after the file
was written unlinks it; a duplicate-key error from the insert reports the
name conflict as 400, other database errors as 500. -/
def postTeams (db : DB) (disk : List String) (r : TeamReq) (file : Option String)
    (dbErr : Option DbErr) : Resp Team × DB × List String :=
  if !trimTruthy r.name then
    (⟨400, some "Team name is required", none, none⟩, db, unlink disk file)
  else if !trimTruthy r.department then
    (⟨400, some "Team department is required", none, none⟩, db, unlink disk file)
  else if 0 < (db.teams.filter (fun t => t.name == jsTrim (jsGetS r.name))).length then
    (⟨400, some "Team name already exists", none, none⟩, db, unlink disk file)
  else
    match dbErr with
    | some .dupEntry =>
        (⟨400, some "Team name already exists", none, none⟩, db, unlink disk file)
    | some _ =>
        (⟨500, some "Failed to create team", none, none⟩, db, unlink disk file)
    | none =>
        let t : Team :=
          { id := freshId (db.teams.map (·.id))
            name := jsTrim (jsGetS r.name)
            department := jsTrim (jsGetS r.department)
            logo := file.map uploadUrlOf
            color := some (jsOr r.color "#f58002") }
        (⟨201, none, none, some t⟩, { db with teams := db.teams ++ [t] }, disk)

/-- PUT /api/teams/:id (lines 1280-1367).  When a new logo arrives the old
logo file is unlinked before the UPDATE runs, so a database failure leaves
the old logo gone and unlinks only the new upload in the catch block. -/
def putTeams (db : DB) (disk : List String) (i : Nat) (r : TeamReq)
    (file : Option String) (dbFail : Bool) : Resp Team × DB × List String :=
  if !trimTruthy r.name then
    (⟨400, some "Team name is required", none, none⟩, db, unlink disk file)
  else if !trimTruthy r.department then
    (⟨400, some "Team department is required", none, none⟩, db, unlink disk file)
  else
    match db.teams.filter (fun t => t.id == i) with
    | [] => (⟨404, some "Team not found", none, none⟩, db, unlink disk file)
    | t0 :: _ =>
      if 0 < (db.teams.filter
          (fun t => t.name == jsTrim (jsGetS r.name) && !(t.id == i))).length then
        (⟨400, some "Team name already exists", none, none⟩, db, unlink disk file)
      else
        let disk1 := replaceOldFile disk file t0.logo
        let logoUrl := match file with
          | some f => some (uploadUrlOf f)
          | none => t0.logo
        if dbFail then
          (⟨500, some "Failed to update team", none, none⟩, db, unlink disk1 file)
        else
          let t1 : Team :=
            { t0 with
                name := jsTrim (jsGetS r.name)
                department := jsTrim (jsGetS r.department)
                logo := logoUrl
                color := some (jsOr r.color (jsOr t0.color "#f58002")) }
          (⟨200, none, none, some t1⟩,
           { db with teams := db.teams.map (fun t => if t.id == i then t1 else t) },
           disk1)

/-- DELETE /api/teams/:id (lines 1370-1403); the managers foreign key is
ON DELETE SET NULL, so referencing managers keep their row with a cleared
teamId. -/
def deleteTeam (db : DB) (disk : List String) (i : Nat) :
    Resp Unit × DB × List String :=
  match db.teams.filter (fun t => t.id == i) with
  | [] => (⟨404, some "Team not found", none, none⟩, db, disk)
  | t0 :: _ =>
    let disk1 := match t0.logo with
      | some u => disk.erase (fileOfUrl u)
      | none => disk
    (⟨200, none, some "Team deleted successfully", none⟩,
     { db with
        teams := db.teams.filter (fun t => !(t.id == i))
        managers := db.managers.map (fun m =>
          if m.teamId == some i then { m with teamId := none } else m) },
     disk1)

/-! ## Event image handlers (lines 1473-1623) -/

/-- POST /api/event-images (lines 1473-1516). -/
def postEventImages (db : DB) (disk : List String) (r : EventImageReq)
    (file : Option String) (dbFail : Bool) : Resp EventImage × DB × List String :=
  match file with
  | none => (⟨400, some "Image file is required", none, none⟩, db, disk)
  | some f =>
    if dbFail then
      (⟨500, some "Failed to create event image", none, none⟩, db, disk.erase f)
    else
      let img : EventImage :=
        { id := freshId (db.eventImages.map (·.id))
          title := optTrim r.title
          description := optTrim r.description
          imageUrl := uploadUrlOf f
          displayOrder := r.displayOrder.getD 0 }
      (⟨201, none, none, some img⟩,
       { db with eventImages := db.eventImages ++ [img] }, disk)

/-- PUT /api/event-images/:id (lines 1519-1587): a new upload replaces and
unlinks the old stored image before the UPDATE runs. -/
def putEventImages (db : DB) (disk : List String) (i : Nat) (r : EventImageReq)
    (file : Option String) (dbFail : Bool) : Resp EventImage × DB × List String :=
  match db.eventImages.filter (fun e => e.id == i) with
  | [] => (⟨404, some "Event image not found", none, none⟩, db, unlink disk file)
  | e0 :: _ =>
    let disk1 := replaceOldFile disk file (some e0.imageUrl)
    let url := match file with
      | some f => uploadUrlOf f
      | none => e0.imageUrl
    let order := match r.displayOrder with
      | some n => n
      | none => e0.displayOrder
    if dbFail then
      (⟨500, some "Failed to update event image", none, none⟩, db, unlink disk1 file)
    else
      let e1 : EventImage :=
        { e0 with
            title := optTrim r.title
            description := optTrim r.description
            imageUrl := url
            displayOrder := order }
      (⟨200, none, none, some e1⟩,
       { db with eventImages := db.eventImages.map (fun e =>
           if e.id == i then e1 else e) },
       disk1)

/-- DELETE /api/event-images/:id (lines 1590-1623). -/
def deleteEventImage (db : DB) (disk : List String) (i : Nat) :
    Resp Unit × DB × List String :=
  match db.eventImages.filter (fun e => e.id == i) with
  | [] => (⟨404, some "Event image not found", none, none⟩, db, disk)
  | e0 :: _ =>
    (⟨200, none, some "Event image deleted successfully", none⟩,
     { db with eventImages := db.eventImages.filter (fun e => !(e.id == i)) },
     disk.erase (fileOfUrl e0.imageUrl))

/-! ## Notice handlers (lines 1710-1962).  Requests may carry a `document`
and a `scheduleImage` file; each failure path unlinks every file that was
written. -/

/-- POST /api/notices (lines 1710-1808). -/
def postNotices (db : DB) (disk : List String) (r : NoticeReq)
    (docFile schedFile : Option String) (dbFail : Bool) :
    Resp Notice × DB × List String :=
  if !trimTruthy r.title then
    (⟨400, some "Notice title is required", none, none⟩, db,
     unlink (unlink disk docFile) schedFile)
  else if !trimTruthy r.description then
    (⟨400, some "Notice description is required", none, none⟩, db,
     unlink (unlink disk docFile) schedFile)
  else if !jsTruthy r.noticeDate then
    (⟨400, some "Notice date is required", none, none⟩, db,
     unlink (unlink disk docFile) schedFile)
  else if dbFail then
    (⟨500, some "Failed to create notice", none, none⟩, db,
     unlink (unlink disk docFile) schedFile)
  else
    let n : Notice :=
      { id := freshId (db.notices.map (·.id))
        title := some (jsTrim (jsGetS r.title))
        description := some (jsTrim (jsGetS r.description))
        documentUrl := docFile.map uploadUrlOf
        scheduleImageUrl := schedFile.map uploadUrlOf
        noticeDate := jsGetS r.noticeDate }
    (⟨201, none, none, some n⟩, { db with notices := db.notices ++ [n] }, disk)

/-- PUT /api/notices/:id (lines 1811-1913): no field validation; new files
replace and unlink the old stored ones before the UPDATE runs. -/
def putNotices (db : DB) (disk : List String) (i : Nat) (r : NoticeReq)
    (docFile schedFile : Option String) (dbFail : Bool) :
    Resp Notice × DB × List String :=
  match db.notices.filter (fun n => n.id == i) with
  | [] =>
    (⟨404, some "Notice not found", none, none⟩, db,
     unlink (unlink disk docFile) schedFile)
  | n0 :: _ =>
    let disk1 := replaceOldFile disk docFile n0.documentUrl
    let disk2 := replaceOldFile disk1 schedFile n0.scheduleImageUrl
    let docUrl := match docFile with
      | some f => some (uploadUrlOf f)
      | none => n0.documentUrl
    let schedUrl := match schedFile with
      | some f => some (uploadUrlOf f)
      | none => n0.scheduleImageUrl
    if dbFail then
      (⟨500, some "Failed to update notice", none, none⟩, db,
       unlink (unlink disk2 docFile) schedFile)
    else
      let n1 : Notice :=
        { n0 with
            title := optTrim r.title
            description := optTrim r.description
            documentUrl := docUrl
            scheduleImageUrl := schedUrl
            noticeDate := if jsTruthy r.noticeDate then jsGetS r.noticeDate
                          else n0.noticeDate }
      (⟨200, none, none, some n1⟩,
       { db with notices := db.notices.map (fun n => if n.id == i then n1 else n) },
       disk2)

/-- DELETE /api/notices/:id (lines 1916-1962). -/
def deleteNotice (db : DB) (disk : List String) (i : Nat) :
    Resp Unit × DB × List String :=
  match db.notices.filter (fun n => n.id == i) with
  | [] => (⟨404, some "Notice not found", none, none⟩, db, disk)
  | n0 :: _ =>
    let disk1 := match n0.documentUrl with
      | some u => disk.erase (fileOfUrl u)
      | none => disk
    let disk2 := match n0.scheduleImageUrl with
      | some u => disk1.erase (fileOfUrl u)
      | none => disk1
    (⟨200, none, some "Notice deleted successfully", none⟩,
     { db with notices := db.notices.filter (fun n => !(n.id == i)) }, disk2)

/-! ## Student-link handlers (lines 2055-2243) -/

/-- GET /api/student-links/token/:token (lines 2055-2082): the query joins
managers and filters on `isActive = TRUE`, so inactive or unknown tokens
fall through to 404. -/
def getLinkByToken (db : DB) (token : String) : Resp StudentLink :=
  match (db.studentLinks.filter (fun l => l.token == token && l.isActive)).filter
      (fun l => db.managers.any (fun m => m.id == l.managerId)) with
  | [] => ⟨404, some "Link not found or inactive", none, none⟩
  | l :: _ => ⟨200, none, none, some l⟩

/-- POST /api/student-links/submit (lines 2085-2170): token-authenticated
public creation of a student row tied to the link's manager. -/
def submitStudentLink (db : DB) (r : SubmitReq) (today : SimpleDate) :
    Resp Student × DB :=
  if !jsTruthy r.token then
    (⟨400, some "Token is required", none, none⟩, db)
  else if !trimTruthy r.name then
    (⟨400, some "Name is required", none, none⟩, db)
  else if !trimTruthy r.prn_uid then
    (⟨400, some "PRN/UID is required", none, none⟩, db)
  else if !trimTruthy r.contact then
    (⟨400, some "Contact is required", none, none⟩, db)
  else if !r.birthDate.isSome then
    (⟨400, some "Birth date is required", none, none⟩, db)
  else
    match db.studentLinks.filter (fun l => l.token == jsGetS r.token && l.isActive) with
    | [] => (⟨404, some "Invalid or inactive link", none, none⟩, db)
    | l :: _ =>
      if 0 < (db.students.filter
          (fun s => s.prn_uid == jsTrim (jsGetS r.prn_uid))).length then
        (⟨400, some "PRN/UID already exists", none, none⟩, db)
      else
        let s : Student :=
          { id := freshId (db.students.map (·.id))
            name := jsTrim (jsGetS r.name)
            prn_uid := jsTrim (jsGetS r.prn_uid)
            contact := jsTrim (jsGetS r.contact)
            email := optTrim r.email
            address := optTrim r.address
            birthDate := r.birthDate.getD ⟨0, 0, 0⟩
            age := computeAge (r.birthDate.getD ⟨0, 0, 0⟩) today
            managerId := l.managerId
            linkToken := some (jsGetS r.token) }
        (⟨201, none, none, some s⟩, { db with students := db.students ++ [s] })

/-- DELETE /api/student-links/:id (lines 2227-2243): the handler runs the
DELETE statement and acknowledges success without any existence check. -/
def deleteStudentLink (db : DB) (i : Nat) : Resp Unit × DB :=
  (⟨200, none, some "Link deleted successfully", none⟩,
   { db with studentLinks := db.studentLinks.filter (fun l => !(l.id == i)) })

/-! ## Team-image JSON handlers (lines 105-250): metadata lives in
data/team-images.json rather than the database.  `wFail` injects a
filesystem failure while writing the JSON file. -/

/-- Replace the first list element satisfying `p` (JS findIndex + mutate). -/
def updateFirst (p : α → Bool) (f : α → α) : List α → List α
  | [] => []
  | a :: t => if p a then f a :: t else a :: updateFirst p f t

/-- POST /api/team-images/upload (lines 121-170).  `nowId` models
`Date.now().toString()`. -/
def postTeamImagesUpload (st : TIState) (teamName sport : Option String)
    (file : Option String) (nowId : String) (wFail : Bool) :
    Resp TeamImage × TIState :=
  match file with
  | none => (⟨400, some "No file uploaded", none, none⟩, st)
  | some f =>
    if !(jsTruthy teamName && jsTruthy sport) then
      (⟨400, some "Team name and sport are required", none, none⟩,
       { st with disk := st.disk.erase f })
    else if wFail then
      (⟨500, some "Failed to upload image", none, none⟩,
       { st with disk := st.disk.erase f })
    else
      let img : TeamImage :=
        { id := nowId, imageUrl := uploadUrlOf f
          teamName := jsGetS teamName, sport := jsGetS sport, filename := f }
      (⟨200, none, none, some img⟩,
       { st with data := some ((st.data.getD []) ++ [img]) })

/-- PUT /api/team-images/:id (lines 173-214).  Neither 404 path nor the
catch block unlinks the freshly uploaded file. -/
def putTeamImages (st : TIState) (i : String) (teamName sport imageUrl : Option String)
    (file : Option String) (wFail : Bool) : Resp TeamImage × TIState :=
  match st.data with
  | none => (⟨404, some "Team images not found", none, none⟩, st)
  | some images =>
    match images.find? (fun im => im.id == i) with
    | none => (⟨404, some "Image not found", none, none⟩, st)
    | some old =>
      let disk1 := match file with
        | some _ => if old.filename == "" then st.disk else st.disk.erase old.filename
        | none => st.disk
      let upd : TeamImage → TeamImage := fun im =>
        let im1 := match file with
          | some f => { im with imageUrl := uploadUrlOf f, filename := f }
          | none =>
            if jsTruthy imageUrl then { im with imageUrl := jsGetS imageUrl } else im
        { im1 with teamName := jsGetS teamName, sport := jsGetS sport }
      let images1 := updateFirst (fun im => im.id == i) upd images
      if wFail then
        (⟨500, some "Failed to update image", none, none⟩, { st with disk := disk1 })
      else
        (⟨200, none, none, images1.find? (fun im => im.id == i)⟩,
         { disk := disk1, data := some images1 })

/-! ## Sample data used by witnesses and counterexamples -/

def exManager : Manager :=
  { id := 1, name := "Asha", department := "CS", sport := "Cricket"
    contact := "9999999999", email := "asha@x.co", studentCount := 10, teamId := none }

def exStudent : Student :=
  { id := 1, name := "Ravi", prn_uid := "PRN1", contact := "888", email := none
    address := none, birthDate := ⟨2003, 5, 2⟩, age := 21, managerId := 1
    linkToken := none }

def exDB : DB :=
  { managers := [exManager]
    sports := [⟨1, "Cricket", none⟩]
    teams := [⟨1, "Tigers", "CS", none, some "#112233"⟩]
    students := [exStudent]
    coaches := [⟨1, "Kiran", "777", none, none, 1⟩]
    selections := [⟨1, 1, 1, false⟩]
    eventImages := [⟨1, none, none, uploadUrlOf "ev1.png", 0⟩]
    notices := [⟨1, some "T", some "D", none, none, "2024-01-01"⟩]
    studentLinks := [⟨1, 1, "tok-inactive", false⟩, ⟨2, 1, "tok-active", true⟩] }

def emptyDB : DB := ⟨[], [], [], [], [], [], [], [], []⟩

/-! ## C1: the age rule -/

/-- The decrement condition of the code is exactly the lexicographic
month/day comparison that the spec states. -/
theorem computeAge_eq_ageSpecFormula (birth today : SimpleDate) :
    computeAge birth today = ageSpecFormula birth today := by
  simp only [computeAge, ageSpecFormula]
  split <;> split <;> omega

theorem postStudents_stores_computeAge (db : DB) (r : StudentReq)
    (today birth : SimpleDate) (hb : r.birthDate = some birth)
    (h : (postStudents db r today).1.status = 201) :
    ((postStudents db r today).1.payload.map Student.age) =
      some (computeAge birth today) := by
  simp only [postStudents] at h ⊢
  split at h
  · simp at h
  · split at h
    · simp at h
    · rename_i hv hp
      rw [if_neg hv, if_neg hp]
      simp [hb]

theorem putStudent_stores_computeAge (db : DB) (i : Nat) (r : StudentReq)
    (today birth : SimpleDate) (hb : r.birthDate = some birth)
    (h : (putStudent db i r today).1.status = 200) :
    ∀ s ∈ (putStudent db i r today).2.students, s.id = i →
      s.age = computeAge birth today := by
  simp only [putStudent] at h ⊢
  split at h
  · simp at h
  · split at h
    · simp at h
    · split at h
      · simp at h
      · rename_i hv hex hp
        rw [if_neg hv, if_neg hex, if_neg hp]
        intro s hs hid
        simp only [List.mem_map] at hs
        obtain ⟨a, _, rfl⟩ := hs
        by_cases hai : a.id = i
        · simp [hai, hb]
        · simp only [beq_iff_eq, if_neg hai] at hid ⊢
          exact absurd hid hai

theorem submitStudentLink_stores_computeAge (db : DB) (r : SubmitReq)
    (today birth : SimpleDate) (hb : r.birthDate = some birth)
    (h : (submitStudentLink db r today).1.status = 201) :
    ((submitStudentLink db r today).1.payload.map Student.age) =
      some (computeAge birth today) := by
  simp only [submitStudentLink] at h ⊢
  split at h
  · simp at h
  · split at h
    · simp at h
    · split at h
      · simp at h
      · split at h
        · simp at h
        · split at h
          · simp at h
          · split at h
            · simp at h
            · split at h
              · simp at h
              · rename_i h1 h2 h3 h4 h5 xs lk tl hmatch hp
                rw [if_neg h1, if_neg h2, if_neg h3, if_neg h4, if_neg h5]
                rw [if_neg hp]
                simp [hb]

/-- C1: on the student create, student update and link-submission paths,
the stored age is `currentYear - birthYear`, minus one exactly when
`(currentMonth, currentDay)` is lexicographically less than
`(birthMonth, birthDay)`; for birthDate 2000-06-15 the age computed on
2024-06-14 is 23 and on 2024-06-15 or any later day of 2024 it is 24. -/
theorem claim_C1_age_rule :
    (∀ birth today, computeAge birth today = ageSpecFormula birth today) ∧
    (∀ db r today birth, r.birthDate = some birth →
      (postStudents db r today).1.status = 201 →
      ((postStudents db r today).1.payload.map Student.age) =
        some (ageSpecFormula birth today)) ∧
    (∀ db i r today birth, r.birthDate = some birth →
      (putStudent db i r today).1.status = 200 →
      ∀ s ∈ (putStudent db i r today).2.students, s.id = i →
        s.age = ageSpecFormula birth today) ∧
    (∀ db r today birth, r.birthDate = some birth →
      (submitStudentLink db r today).1.status = 201 →
      ((submitStudentLink db r today).1.payload.map Student.age) =
        some (ageSpecFormula birth today)) ∧
    computeAge ⟨2000, 6, 15⟩ ⟨2024, 6, 14⟩ = 23 ∧
    computeAge ⟨2000, 6, 15⟩ ⟨2024, 6, 15⟩ = 24 ∧
    (∀ m d : Int, (6 < m ∨ (m = 6 ∧ 15 ≤ d)) →
      computeAge ⟨2000, 6, 15⟩ ⟨2024, m, d⟩ = 24) := by
  refine ⟨computeAge_eq_ageSpecFormula, ?_, ?_, ?_, by decide, by decide, ?_⟩
  · intro db r today birth hb h
    rw [postStudents_stores_computeAge db r today birth hb h,
      computeAge_eq_ageSpecFormula]
  · intro db i r today birth hb h s hs hid
    rw [putStudent_stores_computeAge db i r today birth hb h s hs hid,
      computeAge_eq_ageSpecFormula]
  · intro db r today birth hb h
    rw [submitStudentLink_stores_computeAge db r today birth hb h,
      computeAge_eq_ageSpecFormula]
  · intro m d hmd
    simp only [computeAge]
    split <;> omega

def exStudentReq : StudentReq :=
  { name := some "Mira", prn_uid := some "PRN9", contact := some "777"
    email := none, address := none, birthDate := some ⟨2000, 6, 15⟩
    managerId := some 1 }

/-- C1 witness: the claim theorem applied to a concrete create request on
the sample database, with every hypothesis discharged by evaluation. -/
theorem claim_C1_age_rule_witness :
    ((postStudents exDB exStudentReq ⟨2024, 6, 14⟩).1.payload.map Student.age) =
        some (ageSpecFormula ⟨2000, 6, 15⟩ ⟨2024, 6, 14⟩) ∧
    computeAge ⟨2000, 6, 15⟩ ⟨2024, 8, 1⟩ = 24 :=
  ⟨claim_C1_age_rule.2.1 exDB exStudentReq ⟨2024, 6, 14⟩ ⟨2000, 6, 15⟩ rfl (by decide),
   claim_C1_age_rule.2.2.2.2.2.2 8 1 (by omega)⟩

/-! ## C2: uniqueness conflicts -/

/-- The selection predicate is invariant under the toggle update map. -/
theorem toggle_pred_invariant (sid mid : Nat) (b : Bool) :
    ((fun s : StudentSelection => s.studentId == sid && s.managerId == mid) ∘
      (fun s : StudentSelection =>
        if s.studentId == sid && s.managerId == mid then
          { s with isSelected := b } else s)) =
    (fun s : StudentSelection => s.studentId == sid && s.managerId == mid) := by
  funext s
  simp only [Function.comp_apply]
  by_cases hc : (s.studentId == sid && s.managerId == mid) = true
  · rw [if_pos hc]
  · rw [if_neg hc]

/-- C2 amended: for manager.email, sport.name, team.name and
student.prn_uid, creating a second row with an existing key value is
rejected with a 400 conflict and exactly one row with that key remains;
for the (studentId, managerId) selection pair the toggle endpoint instead
updates the existing row and acknowledges success with status 200, again
leaving exactly one row with that key. -/
theorem claim_C2_unique_conflicts :
    (∀ db (r : ManagerReq),
      (jsTruthy r.name && jsTruthy r.department && jsTruthy r.sport &&
       jsTruthy r.contact && jsTruthy r.email && jsTruthyI r.studentCount) = true →
      emailValid (jsGetS r.email) = true →
      ¬(r.studentCount.getD 0 ≤ 0) →
      (db.managers.filter (fun m => m.email == jsGetS r.email)).length = 1 →
      (postManagers db r).1 = ⟨400, some "Email already exists", none, none⟩ ∧
      (postManagers db r).2 = db ∧
      ((postManagers db r).2.managers.filter
        (fun m => m.email == jsGetS r.email)).length = 1) ∧
    (∀ db (r : SportReq),
      trimTruthy r.name = true →
      (db.sports.filter (fun s => s.name == jsTrim (jsGetS r.name))).length = 1 →
      (postSports db r none).1 = ⟨400, some "Sport name already exists", none, none⟩ ∧
      (postSports db r none).2 = db ∧
      ((postSports db r none).2.sports.filter
        (fun s => s.name == jsTrim (jsGetS r.name))).length = 1) ∧
    (∀ db disk (r : TeamReq),
      trimTruthy r.name = true → trimTruthy r.department = true →
      (db.teams.filter (fun t => t.name == jsTrim (jsGetS r.name))).length = 1 →
      (postTeams db disk r none none).1 =
        ⟨400, some "Team name already exists", none, none⟩ ∧
      (postTeams db disk r none none).2.1 = db ∧
      (postTeams db disk r none none).2.2 = disk ∧
      ((postTeams db disk r none none).2.1.teams.filter
        (fun t => t.name == jsTrim (jsGetS r.name))).length = 1) ∧
    (∀ db (r : StudentReq) today,
      (jsTruthy r.name && jsTruthy r.prn_uid && jsTruthy r.contact &&
       r.birthDate.isSome && jsTruthyN r.managerId) = true →
      (db.students.filter
        (fun s => s.prn_uid == jsTrim (jsGetS r.prn_uid))).length = 1 →
      (postStudents db r today).1 = ⟨400, some "PRN/UID already exists", none, none⟩ ∧
      (postStudents db r today).2 = db ∧
      ((postStudents db r today).2.students.filter
        (fun s => s.prn_uid == jsTrim (jsGetS r.prn_uid))).length = 1) ∧
    (∀ db (sid mid : Nat) (b : Bool), sid ≠ 0 → mid ≠ 0 →
      (db.selections.filter
        (fun s => s.studentId == sid && s.managerId == mid)).length = 1 →
      (toggleSelection db ⟨some sid, some mid, some b⟩).1.status = 200 ∧
      ((toggleSelection db ⟨some sid, some mid, some b⟩).2.selections.filter
        (fun s => s.studentId == sid && s.managerId == mid)).length = 1 ∧
      (∀ s ∈ (toggleSelection db ⟨some sid, some mid, some b⟩).2.selections,
        s.studentId = sid → s.managerId = mid → s.isSelected = b)) := by
  refine ⟨?_, ?_, ?_, ?_, ?_⟩
  · intro db r hv hev hsc hdup
    simp [postManagers, hv, hev, hsc, hdup]
  · intro db r hn hdup
    simp [postSports, hn, hdup]
  · intro db disk r hn hd hdup
    simp [postTeams, hn, hd, hdup, unlink]
  · intro db r today hv hdup
    simp [postStudents, hv, hdup]
  · intro db sid mid b hs hm hdup
    have hts : jsTruthyN (some sid) = true := by
      simp [jsTruthyN]; omega
    have htm : jsTruthyN (some mid) = true := by
      simp [jsTruthyN]; omega
    simp only [toggleSelection, Option.getD_some, Option.isSome_some]
    rw [if_neg (by simp [hts, htm]), if_pos (by omega)]
    refine ⟨rfl, ?_, ?_⟩
    · simp only [List.filter_map, toggle_pred_invariant, List.length_map]
      exact hdup
    · intro s hs' hsid hmid
      simp only [List.mem_map] at hs'
      obtain ⟨a, _, rfl⟩ := hs'
      by_cases hc : (a.studentId == sid && a.managerId == mid) = true
      · rw [if_pos hc]
      · rw [if_neg hc] at hsid hmid ⊢
        simp only [Bool.and_eq_true, beq_iff_eq] at hc
        exact absurd ⟨hsid, hmid⟩ hc

def exToggleReq : ToggleReq := ⟨some 1, some 1, some true⟩

/-- C2 counterexample: the sample database already holds the selection
(studentId 1, managerId 1); submitting the pair again returns 200 with a
success message, not the 400 conflict the claim requires. -/
theorem claim_C2_counterexample :
    (toggleSelection exDB exToggleReq).1.status = 200 ∧
    ¬(toggleSelection exDB exToggleReq).1.status = 400 := by decide

def exManagerReqDup : ManagerReq :=
  { name := some "Biju", department := some "IT", sport := some "Kabaddi"
    contact := some "555", email := some "asha@x.co", studentCount := some 5
    teamId := none }

def exSportReqDup : SportReq := ⟨some "Cricket", none⟩

def exTeamReqDup : TeamReq := ⟨some "Tigers", some "IT", none⟩

def exStudentReqDup : StudentReq :=
  { name := some "Zoya", prn_uid := some "PRN1", contact := some "123"
    email := none, address := none, birthDate := some ⟨2001, 1, 1⟩
    managerId := some 1 }

/-- C2 witness: every branch of the amended claim exercised on the sample
database with concrete duplicate keys. -/
theorem claim_C2_unique_conflicts_witness :
    ((postManagers exDB exManagerReqDup).1 =
      ⟨400, some "Email already exists", none, none⟩ ∧
     (postManagers exDB exManagerReqDup).2 = exDB ∧
     ((postManagers exDB exManagerReqDup).2.managers.filter
       (fun m => m.email == jsGetS exManagerReqDup.email)).length = 1) ∧
    ((postSports exDB exSportReqDup none).1 =
      ⟨400, some "Sport name already exists", none, none⟩) ∧
    ((postTeams exDB ["f.png"] exTeamReqDup none none).1 =
      ⟨400, some "Team name already exists", none, none⟩) ∧
    ((postStudents exDB exStudentReqDup ⟨2024, 1, 1⟩).1 =
      ⟨400, some "PRN/UID already exists", none, none⟩) ∧
    (toggleSelection exDB ⟨some 1, some 1, some true⟩).1.status = 200 :=
  ⟨claim_C2_unique_conflicts.1 exDB exManagerReqDup (by decide) (by decide)
      (by decide) (by decide),
   (claim_C2_unique_conflicts.2.1 exDB exSportReqDup (by decide) (by decide)).1,
   (claim_C2_unique_conflicts.2.2.1 exDB ["f.png"] exTeamReqDup (by decide)
      (by decide) (by decide)).1,
   (claim_C2_unique_conflicts.2.2.2.1 exDB exStudentReqDup ⟨2024, 1, 1⟩
      (by decide) (by decide)).1,
   (claim_C2_unique_conflicts.2.2.2.2 exDB 1 1 true (by decide) (by decide)
      (by decide)).1⟩

/-! ## C3: inactive student links -/

/-- C3: when every StudentLink row carrying a token is inactive, both the
public token lookup and the public submission endpoint answer 404 without
returning link data, creating a student or touching the database, even
though the row exists. -/
theorem claim_C3_inactive_link :
    ∀ (db : DB) (t : String) (r : SubmitReq) today,
      (∃ l ∈ db.studentLinks, l.token = t) →
      (∀ l ∈ db.studentLinks, l.token = t → l.isActive = false) →
      r.token = some t → t ≠ "" →
      trimTruthy r.name = true → trimTruthy r.prn_uid = true →
      trimTruthy r.contact = true → r.birthDate.isSome = true →
      (getLinkByToken db t).status = 404 ∧ (getLinkByToken db t).payload = none ∧
      (submitStudentLink db r today).1.status = 404 ∧
      (submitStudentLink db r today).1.payload = none ∧
      (submitStudentLink db r today).2 = db := by
  intro db t r today _ hinact hrt htne hn hp hc hb
  have hfil : db.studentLinks.filter (fun l => l.token == t && l.isActive) = [] := by
    refine List.filter_eq_nil_iff.mpr ?_
    intro l hl
    simp only [Bool.and_eq_true, beq_iff_eq, not_and]
    intro hteq
    simp [hinact l hl hteq]
  have hjt : jsTruthy (some t) = true := by
    simp [jsTruthy, htne]
  refine ⟨?_, ?_, ?_, ?_, ?_⟩ <;>
    simp [getLinkByToken, submitStudentLink, hfil, hjt, hn, hp, hc, hb, hrt, jsGetS]

def exSubmitReq : SubmitReq :=
  { token := some "tok-inactive", name := some "Mira", prn_uid := some "PRN9"
    contact := some "777", email := none, address := none
    birthDate := some ⟨2000, 6, 15⟩ }

/-- C3 witness: the sample database holds the inactive link
`tok-inactive`; both endpoints reject it with 404 and leave the database
unchanged. -/
theorem claim_C3_inactive_link_witness :
    (getLinkByToken exDB "tok-inactive").status = 404 ∧
    (getLinkByToken exDB "tok-inactive").payload = none ∧
    (submitStudentLink exDB exSubmitReq ⟨2024, 6, 14⟩).1.status = 404 ∧
    (submitStudentLink exDB exSubmitReq ⟨2024, 6, 14⟩).1.payload = none ∧
    (submitStudentLink exDB exSubmitReq ⟨2024, 6, 14⟩).2 = exDB :=
  claim_C3_inactive_link exDB "tok-inactive" exSubmitReq ⟨2024, 6, 14⟩
    ⟨⟨1, 1, "tok-inactive", false⟩, by decide, rfl⟩ (by decide) rfl (by decide)
    (by decide) (by decide) (by decide) (by decide)

/-! ## C4: sport deletion blocked while referenced -/

/-- C4: deleting a sport referenced by some manager through the free-text
sport field is refused with 400 and leaves the database untouched; with no
referencing manager the row is removed and success acknowledged. -/
theorem claim_C4_sport_delete :
    ∀ (db : DB) (i : Nat) (s : Sport), db.sports.filter (fun x => x.id == i) = [s] →
      ((0 < (db.managers.filter (fun m => m.sport == s.name)).length →
        (deleteSport db i).1.status = 400 ∧ (deleteSport db i).2 = db) ∧
       ((db.managers.filter (fun m => m.sport == s.name)).length = 0 →
        (deleteSport db i).1.status = 200 ∧
        (deleteSport db i).1.message = some "Sport deleted successfully" ∧
        (deleteSport db i).2 =
          { db with sports := db.sports.filter (fun x => !(x.id == i)) })) := by
  intro db i s hfil
  simp only [deleteSport, hfil]
  constructor
  · intro hused
    rw [if_pos hused]
    exact ⟨rfl, rfl⟩
  · intro hfree
    rw [if_neg (by omega)]
    exact ⟨rfl, rfl, rfl⟩

/-- C4 witness: sport 1 of the sample database is referenced by manager
Asha, so its deletion is refused and the database is unchanged. -/
theorem claim_C4_sport_delete_witness :
    (deleteSport exDB 1).1.status = 400 ∧ (deleteSport exDB 1).2 = exDB :=
  (claim_C4_sport_delete exDB 1 ⟨1, "Cricket", none⟩ (by decide)).1 (by decide)

/-! ## C5: login does not reveal whether the email exists -/

/-- C5: a login pair matching no manager row always yields the same
constant 401 body, regardless of whether the email exists with another
contact or not at all; a matching pair returns the row with success. -/
theorem claim_C5_login :
    ∀ (db : DB) (e c : String), e ≠ "" → c ≠ "" →
      ((db.managers.filter (fun m => m.email == e && m.contact == c) = [] →
        managerLogin db ⟨some e, some c⟩ =
          ⟨401, some "Invalid email or contact number", none, none⟩) ∧
       (∀ m tl,
        db.managers.filter (fun m => m.email == e && m.contact == c) = m :: tl →
        managerLogin db ⟨some e, some c⟩ = ⟨200, none, none, some m⟩) ∧
       (∀ db2 : DB,
        db.managers.filter (fun m => m.email == e && m.contact == c) = [] →
        db2.managers.filter (fun m => m.email == e && m.contact == c) = [] →
        managerLogin db ⟨some e, some c⟩ = managerLogin db2 ⟨some e, some c⟩)) := by
  intro db e c he hc
  have hv : ¬(!(jsTruthy (some e) && jsTruthy (some c))) = true := by
    simp [jsTruthy, he, hc]
  refine ⟨?_, ?_, ?_⟩
  · intro hfil
    simp only [managerLogin]
    rw [if_neg hv]
    simp [jsGetS, hfil]
  · intro m tl hfil
    simp only [managerLogin]
    rw [if_neg hv]
    simp [jsGetS, hfil]
  · intro db2 hfil1 hfil2
    simp only [managerLogin]
    rw [if_neg hv, if_neg hv]
    simp [jsGetS, hfil1, hfil2]

/-- C5 witness: on the sample database, the existing email with a wrong
contact and a nonexistent email produce the identical 401 response, and
the correct pair logs in. -/
theorem claim_C5_login_witness :
    managerLogin exDB ⟨some "asha@x.co", some "000"⟩ =
      ⟨401, some "Invalid email or contact number", none, none⟩ ∧
    managerLogin exDB ⟨some "ghost@x.co", some "000"⟩ =
      ⟨401, some "Invalid email or contact number", none, none⟩ ∧
    managerLogin exDB ⟨some "asha@x.co", some "9999999999"⟩ =
      ⟨200, none, none, some exManager⟩ :=
  ⟨(claim_C5_login exDB "asha@x.co" "000" (by decide) (by decide)).1 (by decide),
   (claim_C5_login exDB "ghost@x.co" "000" (by decide) (by decide)).1 (by decide),
   (claim_C5_login exDB "asha@x.co" "9999999999" (by decide) (by decide)).2.1
     exManager [] (by decide)⟩

/-! ## C6: delete handlers and the missing existence check -/

/-- When a filter retains nothing, its complement retains everything. -/
theorem filter_not_of_filter_nil {α : Type} (p : α → Bool) (l : List α)
    (h : l.filter p = []) : l.filter (fun a => !(p a)) = l := by
  refine List.filter_eq_self.mpr ?_
  intro a ha
  have := List.filter_eq_nil_iff.mp h a ha
  simp [this]

/-- C6 amended: every DELETE handler except student links verifies
existence first and returns 404 leaving all state unchanged when the row
is absent, and only when the row exists does it delete the row and return
a success acknowledgement — stated per handler as: absent implies 404 and
no modification, and a success acknowledgement implies the row existed and
was removed (managers additionally shown to succeed unconditionally on an
existing row; sports may refuse an existing row with 400 while
referenced).  DELETE on student links never checks existence and
acknowledges success even when no row matched, leaving the database
unchanged in that case. -/
theorem claim_C6_delete_handlers :
    (∀ (db : DB) i, (db.managers.filter (fun m => m.id == i)).length = 0 →
      (deleteManager db i).1.status = 404 ∧ (deleteManager db i).2 = db) ∧
    (∀ (db : DB) i, (deleteManager db i).1.status = 200 →
      0 < (db.managers.filter (fun m => m.id == i)).length ∧
      (deleteManager db i).2.managers =
        db.managers.filter (fun m => !(m.id == i))) ∧
    (∀ (db : DB) i, db.sports.filter (fun s => s.id == i) = [] →
      (deleteSport db i).1.status = 404 ∧ (deleteSport db i).2 = db) ∧
    (∀ (db : DB) i, (deleteSport db i).1.status = 200 →
      0 < (db.sports.filter (fun s => s.id == i)).length ∧
      (deleteSport db i).2.sports = db.sports.filter (fun s => !(s.id == i))) ∧
    (∀ (db : DB) disk i, db.teams.filter (fun t => t.id == i) = [] →
      (deleteTeam db disk i).1.status = 404 ∧ (deleteTeam db disk i).2.1 = db ∧
      (deleteTeam db disk i).2.2 = disk) ∧
    (∀ (db : DB) disk i, (deleteTeam db disk i).1.status = 200 →
      0 < (db.teams.filter (fun t => t.id == i)).length ∧
      (deleteTeam db disk i).2.1.teams =
        db.teams.filter (fun t => !(t.id == i))) ∧
    (∀ (db : DB) i, (db.students.filter (fun s => s.id == i)).length = 0 →
      (deleteStudent db i).1.status = 404 ∧ (deleteStudent db i).2 = db) ∧
    (∀ (db : DB) i, (deleteStudent db i).1.status = 200 →
      0 < (db.students.filter (fun s => s.id == i)).length ∧
      (deleteStudent db i).2.students =
        db.students.filter (fun s => !(s.id == i))) ∧
    (∀ (db : DB) i, (db.coaches.filter (fun c => c.id == i)).length = 0 →
      (deleteCoach db i).1.status = 404 ∧ (deleteCoach db i).2 = db) ∧
    (∀ (db : DB) i, (deleteCoach db i).1.status = 200 →
      0 < (db.coaches.filter (fun c => c.id == i)).length ∧
      (deleteCoach db i).2.coaches =
        db.coaches.filter (fun c => !(c.id == i))) ∧
    (∀ (db : DB) disk i, db.eventImages.filter (fun e => e.id == i) = [] →
      (deleteEventImage db disk i).1.status = 404 ∧
      (deleteEventImage db disk i).2.1 = db ∧
      (deleteEventImage db disk i).2.2 = disk) ∧
    (∀ (db : DB) disk i, (deleteEventImage db disk i).1.status = 200 →
      0 < (db.eventImages.filter (fun e => e.id == i)).length ∧
      (deleteEventImage db disk i).2.1.eventImages =
        db.eventImages.filter (fun e => !(e.id == i))) ∧
    (∀ (db : DB) disk i, db.notices.filter (fun n => n.id == i) = [] →
      (deleteNotice db disk i).1.status = 404 ∧
      (deleteNotice db disk i).2.1 = db ∧ (deleteNotice db disk i).2.2 = disk) ∧
    (∀ (db : DB) disk i, (deleteNotice db disk i).1.status = 200 →
      0 < (db.notices.filter (fun n => n.id == i)).length ∧
      (deleteNotice db disk i).2.1.notices =
        db.notices.filter (fun n => !(n.id == i))) ∧
    (∀ (db : DB) i, db.studentLinks.filter (fun l => l.id == i) = [] →
      (deleteStudentLink db i).1.status = 200 ∧
      (deleteStudentLink db i).1.message = some "Link deleted successfully" ∧
      (deleteStudentLink db i).2 = db) ∧
    (∀ (db : DB) i, 0 < (db.managers.filter (fun m => m.id == i)).length →
      (deleteManager db i).1.status = 200 ∧
      (deleteManager db i).1.message = some "Manager deleted successfully" ∧
      (deleteManager db i).2.managers = db.managers.filter (fun m => !(m.id == i))) := by
  refine ⟨?_, ?_, ?_, ?_, ?_, ?_, ?_, ?_, ?_, ?_, ?_, ?_, ?_, ?_, ?_, ?_⟩
  · intro db i h
    simp only [deleteManager]
    rw [if_pos h]
    exact ⟨rfl, rfl⟩
  · intro db i h
    simp only [deleteManager] at h ⊢
    split at h
    · simp at h
    · rename_i h1
      rw [if_neg h1]
      exact ⟨by omega, rfl⟩
  · intro db i h
    simp [deleteSport, h]
  · intro db i h
    simp only [deleteSport] at h ⊢
    split at h
    · simp at h
    · rename_i xs s0 tl hfil
      split at h
      · simp at h
      · rename_i h2
        rw [if_neg h2]
        exact ⟨by simp [hfil], rfl⟩
  · intro db disk i h
    simp [deleteTeam, h]
  · intro db disk i h
    simp only [deleteTeam] at h ⊢
    split at h
    · simp at h
    · rename_i xs t0 tl hfil
      exact ⟨by simp [hfil], rfl⟩
  · intro db i h
    simp only [deleteStudent]
    rw [if_pos h]
    exact ⟨rfl, rfl⟩
  · intro db i h
    simp only [deleteStudent] at h ⊢
    split at h
    · simp at h
    · rename_i h1
      rw [if_neg h1]
      exact ⟨by omega, rfl⟩
  · intro db i h
    simp only [deleteCoach]
    rw [if_pos h]
    exact ⟨rfl, rfl⟩
  · intro db i h
    simp only [deleteCoach] at h ⊢
    split at h
    · simp at h
    · rename_i h1
      rw [if_neg h1]
      exact ⟨by omega, rfl⟩
  · intro db disk i h
    simp [deleteEventImage, h]
  · intro db disk i h
    simp only [deleteEventImage] at h ⊢
    split at h
    · simp at h
    · rename_i xs e0 tl hfil
      exact ⟨by simp [hfil], rfl⟩
  · intro db disk i h
    simp [deleteNotice, h]
  · intro db disk i h
    simp only [deleteNotice] at h ⊢
    split at h
    · simp at h
    · rename_i xs n0 tl hfil
      exact ⟨by simp [hfil], rfl⟩
  · intro db i h
    refine ⟨rfl, rfl, ?_⟩
    simp only [deleteStudentLink]
    rw [filter_not_of_filter_nil _ _ h]
  · intro db i h
    simp only [deleteManager]
    rw [if_neg (by omega)]
    exact ⟨rfl, rfl, rfl⟩

/-- C6 counterexample: deleting student link 1 on an empty database
returns a 200 success acknowledgement, not the 404 the claim requires for
an absent row. -/
theorem claim_C6_counterexample :
    (deleteStudentLink emptyDB 1).1.status = 200 ∧
    ¬(deleteStudentLink emptyDB 1).1.status = 404 ∧
    (deleteStudentLink emptyDB 1).2 = emptyDB := by decide

/-- A database whose only sport is unreferenced, for exercising the
successful sport deletion. -/
def exDB2 : DB := { exDB with sports := [⟨2, "Chess", none⟩] }

/-- C6 witness: the amended claim applied to the empty database (absent
rows: 404 everywhere except the unchecked student-link delete) and to the
sample databases (successful deletions of every entity kind). -/
theorem claim_C6_delete_handlers_witness :
    ((deleteManager emptyDB 7).1.status = 404 ∧
     (deleteManager emptyDB 7).2 = emptyDB) ∧
    (0 < (exDB.managers.filter (fun m => m.id == 1)).length ∧
     (deleteManager exDB 1).2.managers =
       exDB.managers.filter (fun m => !(m.id == 1))) ∧
    ((deleteSport emptyDB 7).1.status = 404 ∧ (deleteSport emptyDB 7).2 = emptyDB) ∧
    (0 < (exDB2.sports.filter (fun s => s.id == 2)).length ∧
     (deleteSport exDB2 2).2.sports =
       exDB2.sports.filter (fun s => !(s.id == 2))) ∧
    ((deleteTeam emptyDB ["a.png"] 7).1.status = 404) ∧
    (0 < (exDB.teams.filter (fun t => t.id == 1)).length ∧
     (deleteTeam exDB ["a.png"] 1).2.1.teams =
       exDB.teams.filter (fun t => !(t.id == 1))) ∧
    ((deleteStudent emptyDB 7).1.status = 404) ∧
    (0 < (exDB.students.filter (fun s => s.id == 1)).length) ∧
    ((deleteCoach emptyDB 7).1.status = 404) ∧
    (0 < (exDB.coaches.filter (fun c => c.id == 1)).length) ∧
    ((deleteEventImage emptyDB [] 7).1.status = 404) ∧
    (0 < (exDB.eventImages.filter (fun e => e.id == 1)).length) ∧
    ((deleteNotice emptyDB [] 7).1.status = 404) ∧
    (0 < (exDB.notices.filter (fun n => n.id == 1)).length) ∧
    ((deleteStudentLink emptyDB 7).1.status = 200 ∧
     (deleteStudentLink emptyDB 7).2 = emptyDB) ∧
    ((deleteManager exDB 1).1.status = 200) := by
  obtain ⟨m404, m200, s404, s200, t404, t200, st404, st200, c404, c200,
    e404, e200, n404, n200, lnk, mex⟩ := claim_C6_delete_handlers
  exact ⟨m404 emptyDB 7 (by decide),
    m200 exDB 1 (by decide),
    s404 emptyDB 7 (by decide),
    s200 exDB2 2 (by decide),
    (t404 emptyDB ["a.png"] 7 (by decide)).1,
    t200 exDB ["a.png"] 1 (by decide),
    (st404 emptyDB 7 (by decide)).1,
    (st200 exDB 1 (by decide)).1,
    (c404 emptyDB 7 (by decide)).1,
    (c200 exDB 1 (by decide)).1,
    (e404 emptyDB [] 7 (by decide)).1,
    (e200 exDB [] 1 (by decide)).1,
    (n404 emptyDB [] 7 (by decide)).1,
    (n200 exDB [] 1 (by decide)).1,
    ⟨(lnk emptyDB 7 (by decide)).1, (lnk emptyDB 7 (by decide)).2.2⟩,
    (mex exDB 1 (by decide)).1⟩

/-! ## C7: database exceptions -/

/-- C7 amended: database exceptions surface as 500 responses with the
error detail passed through, except that GET /api/teams answers a missing
teams table with status 200 and an empty array, and duplicate-key errors
are reported as 400 conflicts. -/
theorem claim_C7_db_errors :
    (∀ db : DB, getTeams db (some .noSuchTable) = ⟨200, none, none, some []⟩) ∧
    (∀ (db : DB) (e : DbErr), e ≠ .noSuchTable →
      (getTeams db (some e)).status = 500 ∧
      (getTeams db (some e)).error = some "Failed to fetch teams") ∧
    (∀ (db : DB) (r : SportReq), trimTruthy r.name = true →
      ((postSports db r (some .noSuchTable)).1.status = 500 ∧
       (postSports db r (some .noSuchTable)).2 = db) ∧
      ((postSports db r (some .connRefused)).1.status = 500) ∧
      (∀ msg, (postSports db r (some (.otherErr msg))).1.status = 500 ∧
        (postSports db r (some (.otherErr msg))).1.message = some msg) ∧
      ((postSports db r (some .dupEntry)).1.status = 400)) := by
  refine ⟨fun db => rfl, ?_, ?_⟩
  · intro db e he
    cases e <;> simp_all [getTeams]
  · intro db r hn
    refine ⟨⟨?_, ?_⟩, ?_, fun msg => ⟨?_, ?_⟩, ?_⟩ <;>
      · simp only [postSports]
        rw [if_neg (by simp [hn])]

/-- C7 counterexample: a list request against the missing teams table
yields a 200 success response with an empty array, not the 500 error
response the claim requires. -/
theorem claim_C7_counterexample :
    (getTeams emptyDB (some .noSuchTable)).status = 200 ∧
    ¬(getTeams emptyDB (some .noSuchTable)).status = 500 ∧
    (getTeams emptyDB (some .noSuchTable)).payload = some [] := by decide

/-- C7 witness: the amended claim at concrete error codes on the sample
database. -/
theorem claim_C7_db_errors_witness :
    getTeams exDB (some .noSuchTable) = ⟨200, none, none, some []⟩ ∧
    (getTeams exDB (some .connRefused)).status = 500 ∧
    (postSports exDB exSportReqDup (some .noSuchTable)).1.status = 500 ∧
    (postSports exDB exSportReqDup (some .dupEntry)).1.status = 400 :=
  ⟨claim_C7_db_errors.1 exDB,
   (claim_C7_db_errors.2.1 exDB .connRefused (by decide)).1,
   ((claim_C7_db_errors.2.2 exDB exSportReqDup (by decide)).1).1,
   (claim_C7_db_errors.2.2 exDB exSportReqDup (by decide)).2.2.2⟩

/-! ## C9: future birth dates are accepted and stored with negative age -/

theorem jsTruthy_none : jsTruthy none = false := rfl

theorem jsTruthy_some (s : String) : jsTruthy (some s) = !(s == "") := rfl

/-- A birth date strictly after the current date drives the age formula
negative. -/
theorem computeAge_neg_of_future (birth today : SimpleDate)
    (h : today.year < birth.year ∨ (today.year = birth.year ∧
      (today.month < birth.month ∨
        (today.month = birth.month ∧ today.day < birth.day)))) :
    computeAge birth today < 0 := by
  simp only [computeAge]
  split <;> omega

/-- C9: both student-creation paths accept a birthDate strictly later than
the current date without a validation error and create the student row
with a negative stored age. -/
theorem claim_C9_future_birthdate :
    (∀ (db : DB) (r : StudentReq) (today birth : SimpleDate),
      r.birthDate = some birth →
      (jsTruthy r.name && jsTruthy r.prn_uid && jsTruthy r.contact &&
       r.birthDate.isSome && jsTruthyN r.managerId) = true →
      (db.students.filter
        (fun s => s.prn_uid == jsTrim (jsGetS r.prn_uid))).length = 0 →
      (today.year < birth.year ∨ (today.year = birth.year ∧
        (today.month < birth.month ∨
          (today.month = birth.month ∧ today.day < birth.day)))) →
      (postStudents db r today).1.status = 201 ∧
      (postStudents db r today).1.payload.map Student.age =
        some (computeAge birth today) ∧
      computeAge birth today < 0 ∧
      (postStudents db r today).2.students.length = db.students.length + 1) ∧
    (∀ (db : DB) (r : SubmitReq) (today birth : SimpleDate)
        (lk : StudentLink) (tl : List StudentLink),
      r.birthDate = some birth →
      jsTruthy r.token = true → trimTruthy r.name = true →
      trimTruthy r.prn_uid = true → trimTruthy r.contact = true →
      db.studentLinks.filter
        (fun l => l.token == jsGetS r.token && l.isActive) = lk :: tl →
      (db.students.filter
        (fun s => s.prn_uid == jsTrim (jsGetS r.prn_uid))).length = 0 →
      (today.year < birth.year ∨ (today.year = birth.year ∧
        (today.month < birth.month ∨
          (today.month = birth.month ∧ today.day < birth.day)))) →
      (submitStudentLink db r today).1.status = 201 ∧
      (submitStudentLink db r today).1.payload.map Student.age =
        some (computeAge birth today) ∧
      computeAge birth today < 0 ∧
      (submitStudentLink db r today).2.students.length =
        db.students.length + 1) := by
  constructor
  · intro db r today birth hb hv hfresh hfut
    simp only [postStudents]
    rw [if_neg (by simp [hv]), if_neg (by omega)]
    exact ⟨rfl, by simp [hb], computeAge_neg_of_future birth today hfut, by simp⟩
  · intro db r today birth lk tl hb ht hn hp hc hlink hfresh hfut
    simp only [submitStudentLink]
    rw [if_neg (by simp [ht]), if_neg (by simp [hn]), if_neg (by simp [hp]),
      if_neg (by simp [hc]), if_neg (by simp [hb])]
    simp only [hlink]
    rw [if_neg (by omega)]
    exact ⟨rfl, by simp [hb], computeAge_neg_of_future birth today hfut, by simp⟩

def exFutureReq : StudentReq :=
  { name := some "Tara", prn_uid := some "PRN8", contact := some "55"
    email := none, address := none, birthDate := some ⟨2030, 1, 1⟩
    managerId := some 1 }

/-- C9 witness: a birth date in 2030 submitted on 2024-06-14 is accepted
with status 201 and a negative stored age. -/
theorem claim_C9_future_birthdate_witness :
    (postStudents exDB exFutureReq ⟨2024, 6, 14⟩).1.status = 201 ∧
    (postStudents exDB exFutureReq ⟨2024, 6, 14⟩).1.payload.map Student.age =
      some (computeAge ⟨2030, 1, 1⟩ ⟨2024, 6, 14⟩) ∧
    computeAge ⟨2030, 1, 1⟩ ⟨2024, 6, 14⟩ < 0 ∧
    (postStudents exDB exFutureReq ⟨2024, 6, 14⟩).2.students.length =
      exDB.students.length + 1 :=
  claim_C9_future_birthdate.1 exDB exFutureReq ⟨2024, 6, 14⟩ ⟨2030, 1, 1⟩ rfl
    (by decide) (by decide) (by decide)

/-! ## C10: team color defaulting -/

/-- C10: a team created without a (truthy) color gets the default
`#f58002`; an update without a color keeps the stored color and falls back
to the default only when no stored color is set. -/
theorem claim_C10_team_color :
    (∀ (db : DB) disk (r : TeamReq),
      trimTruthy r.name = true → trimTruthy r.department = true →
      (db.teams.filter (fun t => t.name == jsTrim (jsGetS r.name))).length = 0 →
      jsTruthy r.color = false →
      (postTeams db disk r none none).1.status = 201 ∧
      ((postTeams db disk r none none).1.payload.map Team.color) =
        some (some "#f58002")) ∧
    (∀ (db : DB) disk i (r : TeamReq) (t0 : Team) (tl : List Team),
      trimTruthy r.name = true → trimTruthy r.department = true →
      db.teams.filter (fun t => t.id == i) = t0 :: tl →
      (db.teams.filter
        (fun t => t.name == jsTrim (jsGetS r.name) && !(t.id == i))).length = 0 →
      jsTruthy r.color = false →
      (putTeams db disk i r none false).1.status = 200 ∧
      ((t0.color = none →
        ((putTeams db disk i r none false).1.payload.map Team.color) =
          some (some "#f58002")) ∧
       (∀ c, t0.color = some c → c ≠ "" →
        ((putTeams db disk i r none false).1.payload.map Team.color) =
          some (some c)))) := by
  constructor
  · intro db disk r hn hd hfresh hcf
    simp only [postTeams]
    rw [if_neg (by simp [hn]), if_neg (by simp [hd]), if_neg (by omega)]
    exact ⟨rfl, by simp [jsOr, hcf]⟩
  · intro db disk i r t0 tl hn hd hfil hdup hcf
    simp only [putTeams]
    rw [if_neg (by simp [hn]), if_neg (by simp [hd])]
    simp only [hfil]
    rw [if_neg (by omega), if_neg (by simp)]
    refine ⟨rfl, ?_, ?_⟩
    · intro hc0
      simp [jsOr, hcf, hc0, jsTruthy_none]
    · intro c hc0 hcne
      simp [jsOr, hcf, hc0, jsTruthy_some, jsGetS, hcne]

def exTeamReqNew : TeamReq := ⟨some "Lions", some "IT", none⟩

def exTeamReqUpd : TeamReq := ⟨some "Tigers", some "IT", none⟩

/-- C10 witness: creating team Lions without a color stores the default;
updating team 1 (stored color `#112233`) without a color keeps it. -/
theorem claim_C10_team_color_witness :
    (postTeams exDB [] exTeamReqNew none none).1.status = 201 ∧
    ((postTeams exDB [] exTeamReqNew none none).1.payload.map Team.color) =
      some (some "#f58002") ∧
    ((putTeams exDB [] 1 exTeamReqUpd none false).1.payload.map Team.color) =
      some (some "#112233") :=
  ⟨(claim_C10_team_color.1 exDB [] exTeamReqNew (by decide) (by decide)
      (by decide) (by decide)).1,
   (claim_C10_team_color.1 exDB [] exTeamReqNew (by decide) (by decide)
      (by decide) (by decide)).2,
   ((claim_C10_team_color.2 exDB [] 1 exTeamReqUpd ⟨1, "Tigers", "CS", none, some "#112233"⟩
      [] (by decide) (by decide) (by decide) (by decide) (by decide)).2).2 "#112233"
      rfl (by decide)⟩

/-! ## C8: cleanup of uploaded files on failure -/

theorem count_erase_le (f b : String) (l : List String) :
    (l.erase b).count f ≤ l.count f := by
  rw [List.count_erase]
  omega

theorem count_unlink_le (f : String) (disk : List String) (o : Option String) :
    (unlink disk o).count f ≤ disk.count f := by
  cases o with
  | none => exact le_refl _
  | some b => exact count_erase_le f b disk

theorem count_unlink_self (f : String) (disk : List String)
    (h : disk.count f ≤ 1) : (unlink disk (some f)).count f = 0 := by
  simp only [unlink]
  rw [List.count_erase]
  simp only [beq_self_eq_true, if_true]
  omega

theorem count_unlink_zero (f : String) (disk : List String) (o : Option String)
    (h : disk.count f = 0) : (unlink disk o).count f = 0 := by
  have := count_unlink_le f disk o
  omega

theorem postTeams_cleanup (db : DB) (disk : List String) (r : TeamReq)
    (f : String) (dbErr : Option DbErr) (hc : disk.count f = 1)
    (h : (postTeams db disk r (some f) dbErr).1.status ≠ 201) :
    (postTeams db disk r (some f) dbErr).2.1 = db ∧
    ((postTeams db disk r (some f) dbErr).2.2).count f = 0 := by
  simp only [postTeams] at h ⊢
  split at h
  · rename_i h1
    rw [if_pos h1]
    exact ⟨rfl, count_unlink_self f disk (by omega)⟩
  · rename_i h1
    rw [if_neg h1]
    split at h
    · rename_i h2
      rw [if_pos h2]
      exact ⟨rfl, count_unlink_self f disk (by omega)⟩
    · rename_i h2
      rw [if_neg h2]
      split at h
      · rename_i h3
        rw [if_pos h3]
        exact ⟨rfl, count_unlink_self f disk (by omega)⟩
      · rename_i h3
        rw [if_neg h3]
        split at h
        · exact ⟨rfl, count_unlink_self f disk (by omega)⟩
        · exact ⟨rfl, count_unlink_self f disk (by omega)⟩
        · exact absurd rfl h

theorem count_replaceOldFile_le (f : String) (disk : List String)
    (o u : Option String) :
    (replaceOldFile disk o u).count f ≤ disk.count f := by
  cases o <;> cases u <;>
    first
      | exact le_refl _
      | exact count_erase_le f _ disk

theorem count_unlink_pair (f : String) (disk : List String)
    (o1 o2 : Option String) (h : disk.count f ≤ 1)
    (ho : o1 = some f ∨ o2 = some f) :
    (unlink (unlink disk o1) o2).count f = 0 := by
  rcases ho with h1 | h2
  · subst h1
    exact count_unlink_zero f _ o2 (count_unlink_self f disk h)
  · subst h2
    exact count_unlink_self f _ (le_trans (count_unlink_le f disk o1) h)

theorem putTeams_cleanup (db : DB) (disk : List String) (i : Nat) (r : TeamReq)
    (f : String) (dbFail : Bool) (hc : disk.count f = 1)
    (h : (putTeams db disk i r (some f) dbFail).1.status ≠ 200) :
    (putTeams db disk i r (some f) dbFail).2.1 = db ∧
    ((putTeams db disk i r (some f) dbFail).2.2).count f = 0 := by
  simp only [putTeams] at h ⊢
  split at h
  · rename_i h1
    rw [if_pos h1]
    exact ⟨rfl, count_unlink_self f disk (by omega)⟩
  · rename_i h1
    rw [if_neg h1]
    split at h
    · rename_i h2
      rw [if_pos h2]
      exact ⟨rfl, count_unlink_self f disk (by omega)⟩
    · rename_i h2
      rw [if_neg h2]
      split at h
      · exact ⟨rfl, count_unlink_self f disk (by omega)⟩
      · rename_i xs t0 tl hfil
        split at h
        · rename_i h3
          rw [if_pos h3]
          exact ⟨rfl, count_unlink_self f disk (by omega)⟩
        · rename_i h3
          rw [if_neg h3]
          split at h
          · rename_i h4
            rw [if_pos h4]
            refine ⟨rfl, count_unlink_self f _ ?_⟩
            have := count_replaceOldFile_le f disk (some f) t0.logo
            omega
          · exact absurd rfl h

theorem postEventImages_cleanup (db : DB) (disk : List String)
    (r : EventImageReq) (f : String) (dbFail : Bool) (hc : disk.count f = 1)
    (h : (postEventImages db disk r (some f) dbFail).1.status ≠ 201) :
    (postEventImages db disk r (some f) dbFail).2.1 = db ∧
    ((postEventImages db disk r (some f) dbFail).2.2).count f = 0 := by
  simp only [postEventImages] at h ⊢
  split at h
  · rename_i h1
    rw [if_pos h1]
    exact ⟨rfl, count_unlink_self f disk (by omega)⟩
  · exact absurd rfl h

theorem putEventImages_cleanup (db : DB) (disk : List String) (i : Nat)
    (r : EventImageReq) (f : String) (dbFail : Bool) (hc : disk.count f = 1)
    (h : (putEventImages db disk i r (some f) dbFail).1.status ≠ 200) :
    (putEventImages db disk i r (some f) dbFail).2.1 = db ∧
    ((putEventImages db disk i r (some f) dbFail).2.2).count f = 0 := by
  simp only [putEventImages] at h ⊢
  split at h
  · exact ⟨rfl, count_unlink_self f disk (by omega)⟩
  · rename_i xs e0 tl hfil
    split at h
    · rename_i h1
      rw [if_pos h1]
      refine ⟨rfl, count_unlink_self f _ ?_⟩
      have := count_replaceOldFile_le f disk (some f) (some e0.imageUrl)
      omega
    · exact absurd rfl h

theorem postNotices_cleanup (db : DB) (disk : List String) (r : NoticeReq)
    (docF schedF : Option String) (f : String) (dbFail : Bool)
    (hc : disk.count f = 1) (ho : docF = some f ∨ schedF = some f)
    (h : (postNotices db disk r docF schedF dbFail).1.status ≠ 201) :
    (postNotices db disk r docF schedF dbFail).2.1 = db ∧
    ((postNotices db disk r docF schedF dbFail).2.2).count f = 0 := by
  simp only [postNotices] at h ⊢
  split at h
  · rename_i h1
    rw [if_pos h1]
    exact ⟨rfl, count_unlink_pair f disk docF schedF (by omega) ho⟩
  · rename_i h1
    rw [if_neg h1]
    split at h
    · rename_i h2
      rw [if_pos h2]
      exact ⟨rfl, count_unlink_pair f disk docF schedF (by omega) ho⟩
    · rename_i h2
      rw [if_neg h2]
      split at h
      · rename_i h3
        rw [if_pos h3]
        exact ⟨rfl, count_unlink_pair f disk docF schedF (by omega) ho⟩
      · rename_i h3
        rw [if_neg h3]
        split at h
        · rename_i h4
          rw [if_pos h4]
          exact ⟨rfl, count_unlink_pair f disk docF schedF (by omega) ho⟩
        · exact absurd rfl h

theorem putNotices_cleanup (db : DB) (disk : List String) (i : Nat)
    (r : NoticeReq) (docF schedF : Option String) (f : String) (dbFail : Bool)
    (hc : disk.count f = 1) (ho : docF = some f ∨ schedF = some f)
    (h : (putNotices db disk i r docF schedF dbFail).1.status ≠ 200) :
    (putNotices db disk i r docF schedF dbFail).2.1 = db ∧
    ((putNotices db disk i r docF schedF dbFail).2.2).count f = 0 := by
  simp only [putNotices] at h ⊢
  split at h
  · exact ⟨rfl, count_unlink_pair f disk docF schedF (by omega) ho⟩
  · rename_i xs n0 tl hfil
    split at h
    · rename_i h1
      rw [if_pos h1]
      refine ⟨rfl, count_unlink_pair f _ docF schedF ?_ ho⟩
      have ha := count_replaceOldFile_le f disk docF n0.documentUrl
      have hb := count_replaceOldFile_le f (replaceOldFile disk docF n0.documentUrl)
        schedF n0.scheduleImageUrl
      omega
    · exact absurd rfl h

theorem postTeamImagesUpload_cleanup (st : TIState) (tn sp : Option String)
    (f nowId : String) (wFail : Bool) (hc : st.disk.count f = 1)
    (h : (postTeamImagesUpload st tn sp (some f) nowId wFail).1.status ≠ 200) :
    (postTeamImagesUpload st tn sp (some f) nowId wFail).2.data = st.data ∧
    ((postTeamImagesUpload st tn sp (some f) nowId wFail).2.disk).count f = 0 := by
  simp only [postTeamImagesUpload] at h ⊢
  split at h
  · rename_i h1
    rw [if_pos h1]
    exact ⟨rfl, count_unlink_self f st.disk (by omega)⟩
  · rename_i h1
    rw [if_neg h1]
    split at h
    · rename_i h2
      rw [if_pos h2]
      exact ⟨rfl, count_unlink_self f st.disk (by omega)⟩
    · exact absurd rfl h

/-- C8 amended: every create/update handler that accepts an upload deletes
the freshly written file and creates no row when the request fails — with
the single exception of PUT /api/team-images/:id, whose 404 paths (missing
data file or unknown image id) return without deleting the uploaded file,
leaving it orphaned on disk. -/
theorem claim_C8_upload_cleanup :
    (∀ (db : DB) disk (r : TeamReq) f dbErr, disk.count f = 1 →
      (postTeams db disk r (some f) dbErr).1.status ≠ 201 →
      (postTeams db disk r (some f) dbErr).2.1 = db ∧
      ((postTeams db disk r (some f) dbErr).2.2).count f = 0) ∧
    (∀ (db : DB) disk i (r : TeamReq) f dbFail, disk.count f = 1 →
      (putTeams db disk i r (some f) dbFail).1.status ≠ 200 →
      (putTeams db disk i r (some f) dbFail).2.1 = db ∧
      ((putTeams db disk i r (some f) dbFail).2.2).count f = 0) ∧
    (∀ (db : DB) disk (r : EventImageReq) f dbFail, disk.count f = 1 →
      (postEventImages db disk r (some f) dbFail).1.status ≠ 201 →
      (postEventImages db disk r (some f) dbFail).2.1 = db ∧
      ((postEventImages db disk r (some f) dbFail).2.2).count f = 0) ∧
    (∀ (db : DB) disk i (r : EventImageReq) f dbFail, disk.count f = 1 →
      (putEventImages db disk i r (some f) dbFail).1.status ≠ 200 →
      (putEventImages db disk i r (some f) dbFail).2.1 = db ∧
      ((putEventImages db disk i r (some f) dbFail).2.2).count f = 0) ∧
    (∀ (db : DB) disk (r : NoticeReq) docF schedF f dbFail,
      disk.count f = 1 → docF = some f ∨ schedF = some f →
      (postNotices db disk r docF schedF dbFail).1.status ≠ 201 →
      (postNotices db disk r docF schedF dbFail).2.1 = db ∧
      ((postNotices db disk r docF schedF dbFail).2.2).count f = 0) ∧
    (∀ (db : DB) disk i (r : NoticeReq) docF schedF f dbFail,
      disk.count f = 1 → docF = some f ∨ schedF = some f →
      (putNotices db disk i r docF schedF dbFail).1.status ≠ 200 →
      (putNotices db disk i r docF schedF dbFail).2.1 = db ∧
      ((putNotices db disk i r docF schedF dbFail).2.2).count f = 0) ∧
    (∀ (st : TIState) tn sp f nowId wFail, st.disk.count f = 1 →
      (postTeamImagesUpload st tn sp (some f) nowId wFail).1.status ≠ 200 →
      (postTeamImagesUpload st tn sp (some f) nowId wFail).2.data = st.data ∧
      ((postTeamImagesUpload st tn sp (some f) nowId wFail).2.disk).count f = 0) ∧
    (∀ (st : TIState) i tn sp iu file wFail, st.data = none →
      putTeamImages st i tn sp iu file wFail =
        (⟨404, some "Team images not found", none, none⟩, st)) ∧
    (∀ (st : TIState) i tn sp iu file wFail images, st.data = some images →
      images.find? (fun im => im.id == i) = none →
      putTeamImages st i tn sp iu file wFail =
        (⟨404, some "Image not found", none, none⟩, st)) := by
  refine ⟨postTeams_cleanup, putTeams_cleanup, postEventImages_cleanup,
    putEventImages_cleanup, postNotices_cleanup, putNotices_cleanup,
    postTeamImagesUpload_cleanup, ?_, ?_⟩
  · intro st i tn sp iu file wFail hdata
    simp [putTeamImages, hdata]
  · intro st i tn sp iu file wFail images hdata hfind
    simp [putTeamImages, hdata, hfind]

def exTIState : TIState :=
  { disk := ["up1.png"]
    data := some [⟨"7", uploadUrlOf "old.png", "T", "S", "old.png"⟩] }

/-- C8 counterexample: PUT /api/team-images/:id with an unknown image id
responds 404 but leaves the uploaded file `up1.png` on disk, where the
claim requires every failing upload handler to delete the written file. -/
theorem claim_C8_counterexample :
    (putTeamImages exTIState "1" (some "T2") (some "S2") none
      (some "up1.png") false).1.status = 404 ∧
    ((putTeamImages exTIState "1" (some "T2") (some "S2") none
      (some "up1.png") false).2.disk).count "up1.png" = 1 := by decide

/-- C8 witness: the amended claim at concrete failing uploads — a
duplicate team name, a notice without a title, a team-image upload without
a team name, and the team-image 404 exception. -/
theorem claim_C8_upload_cleanup_witness :
    ((postTeams exDB ["f.png"] exTeamReqDup (some "f.png") none).2.1 = exDB ∧
     ((postTeams exDB ["f.png"] exTeamReqDup (some "f.png")
        none).2.2).count "f.png" = 0) ∧
    ((postNotices emptyDB ["d.pdf"] ⟨none, none, none⟩ (some "d.pdf") none
        false).2.1 = emptyDB ∧
     ((postNotices emptyDB ["d.pdf"] ⟨none, none, none⟩ (some "d.pdf") none
        false).2.2).count "d.pdf" = 0) ∧
    ((postTeamImagesUpload ⟨["x.png"], none⟩ none none (some "x.png") "99"
        false).2.data = (⟨["x.png"], none⟩ : TIState).data ∧
     ((postTeamImagesUpload ⟨["x.png"], none⟩ none none (some "x.png") "99"
        false).2.disk).count "x.png" = 0) ∧
    putTeamImages ⟨["y.png"], none⟩ "1" none none none (some "y.png") false =
      (⟨404, some "Team images not found", none, none⟩, ⟨["y.png"], none⟩) :=
  ⟨claim_C8_upload_cleanup.1 exDB ["f.png"] exTeamReqDup "f.png" none
      (by decide) (by decide),
   claim_C8_upload_cleanup.2.2.2.2.1 emptyDB ["d.pdf"] ⟨none, none, none⟩
      (some "d.pdf") none "d.pdf" false (by decide) (Or.inl rfl) (by decide),
   claim_C8_upload_cleanup.2.2.2.2.2.2.1 ⟨["x.png"], none⟩ none none "x.png" "99"
      false (by decide) (by decide),
   claim_C8_upload_cleanup.2.2.2.2.2.2.2.1 ⟨["y.png"], none⟩ "1" none none none
      (some "y.png") false rfl⟩

end SportsDept
